import Mathlib

/-!
Shallow embedding of the C3 tunnel control loop from ns3-c3p,
src/model/c3-tunnel.cc (namespace ns3::c3p).  Doubles and DataRate bit
rates are modelled as exact rationals, byte counters as naturals.
-/

namespace C3p

/-- Modelled from the spec: the ECN recorder collaborator
(C3EcnRecorder, declared in this repository but not under src/).
Per spec section 6 it exposes GetMarkedRatio (marked bytes / total
bytes in the interval, 0 when no traffic occurred), GetMarkedBytes,
and Reset, all scoped to one tick.  We carry the two observable
quantities directly as fields. -/
structure C3EcnRecorder where
  markedBytes : ℕ
  markedRatio : ℚ
  deriving Repr, DecidableEq

def C3EcnRecorder.GetMarkedBytes (r : C3EcnRecorder) : ℕ :=
  r.markedBytes

def C3EcnRecorder.GetMarkedRatio (r : C3EcnRecorder) : ℚ :=
  r.markedRatio

/-- Reset clears the per-interval counters (spec section 6). -/
def C3EcnRecorder.Reset (_r : C3EcnRecorder) : C3EcnRecorder :=
  { markedBytes := 0, markedRatio := 0 }

/-- Modelled from the spec: the flow collaborator interface
(C3Flow, declared in this repository but not under src/).  Per spec
sections 3 and 6 a flow exposes IsFinished, UpdateInfo (mutates the
flow's own state) and GetWeight; the tunnel never looks deeper.  The
flow state type F stays abstract and the three operations are given
as functions on it. -/
structure FlowIface (F : Type) where
  IsFinished : F → Bool
  UpdateInfo : F → F
  GetWeight : F → ℚ

/-- Tunnel state: the fields of C3Tunnel that the control loop reads
and writes (c3-tunnel.cc).  Rates are in bits/sec, the interval in
seconds.  timerDelay models the pending delay of m_timer (none when
no tick is scheduled). -/
structure C3Tunnel (F : Type) where
  alpha : ℚ
  g : ℚ
  weight : ℚ
  weightRequest : ℚ
  rate : ℚ
  rateThresh : ℚ
  rateMin : ℚ
  rateMax : ℚ
  sentBytes : ℕ
  intervalSeconds : ℚ
  ecn : C3EcnRecorder
  flows : List F
  timerDelay : Option ℚ

/-- Line 197: double prevRate = m_sentBytes * 8 / m_interval.GetSeconds (). -/
def C3Tunnel.prevRateBps {F : Type} (t : C3Tunnel F) : ℚ :=
  (t.sentBytes : ℚ) * 8 / t.intervalSeconds

/-- Line 221: m_rate = std::max (std::min (rate, m_rateMax), m_rateMin). -/
def clampRate (r rMin rMax : ℚ) : ℚ :=
  max (min r rMax) rMin

/-- C3Tunnel::UpdateRate (c3-tunnel.cc lines 191-222).  The branch pair
holds the local DataRate rate together with the value m_rateThresh has
after the branch: the congestion branch (marked bytes observed) builds
the candidate (1 - alpha/2) * prevRate and assigns it to m_rateThresh
(lines 204-205); otherwise the branch on the stored m_rate against
m_rateThresh picks (1 + weight) * prevRate (line 213) or
prevRate + weight * DataRate ("10Mbps").GetBitRate () (line 218) and
leaves m_rateThresh alone.  The single clamp of line 221 then stores
the candidate into m_rate. -/
def C3Tunnel.UpdateRate {F : Type} (t : C3Tunnel F) : C3Tunnel F :=
  let prevRate : ℚ := t.prevRateBps
  let branch : ℚ × ℚ :=
    if t.ecn.GetMarkedBytes ≠ 0 then
      ((1 - t.alpha / 2) * prevRate, (1 - t.alpha / 2) * prevRate)
    else
      if t.rate < t.rateThresh then
        ((1 + t.weight) * prevRate, t.rateThresh)
      else
        (prevRate + t.weight * 10000000, t.rateThresh)
  { t with rateThresh := branch.2,
           rate := clampRate branch.1 t.rateMin t.rateMax }

/-- Loop body of the flow sweep in C3Tunnel::UpdateInfo (lines 179-187):
a finished flow is skipped, an unfinished flow first gets UpdateInfo and
then contributes GetWeight to the accumulator; the (possibly updated)
flow stays in the table. -/
def updateInfoStep {F : Type} (I : FlowIface F) (acc : List F × ℚ) (f : F) :
    List F × ℚ :=
  if I.IsFinished f then
    (acc.1 ++ [f], acc.2)
  else
    let f2 := I.UpdateInfo f
    (acc.1 ++ [f2], acc.2 + I.GetWeight f2)

/-- C3Tunnel::UpdateInfo (c3-tunnel.cc lines 170-189): refresh alpha by
the EWMA of line 176, then sweep the flow table accumulating the weight
request (lines 178-188). -/
def C3Tunnel.UpdateInfo {F : Type} (I : FlowIface F) (t : C3Tunnel F) :
    C3Tunnel F :=
  let alpha2 : ℚ := (1 - t.g) * t.alpha + t.g * t.ecn.GetMarkedRatio
  let sweep := t.flows.foldl (updateInfoStep I) ([], 0)
  { t with alpha := alpha2, flows := sweep.1, weightRequest := sweep.2 }

/-- Modelled from the spec: C3Tunnel::ScheduleFlow (declared in this
repository but not under src/).  Per spec sections 1 and 4.4 the
per-flow scheduling decides which packets to send within the rate
budget; it is out of the specified core and does not mutate the
tunnel's control fields, so it is the identity on the modelled state. -/
def C3Tunnel.ScheduleFlow {F : Type} (t : C3Tunnel F) : C3Tunnel F :=
  t

/-- C3Tunnel::Update (c3-tunnel.cc lines 98-110), in source order:
UpdateInfo; UpdateRate; ScheduleFlow; m_ecnRecorder->Reset ();
m_sentBytes = 0; m_timer.Schedule (m_interval). -/
def C3Tunnel.Update {F : Type} (I : FlowIface F) (t : C3Tunnel F) :
    C3Tunnel F :=
  let t1 := C3Tunnel.UpdateInfo I t
  let t2 := C3Tunnel.UpdateRate t1
  let t3 := C3Tunnel.ScheduleFlow t2
  let t4 := { t3 with ecn := t3.ecn.Reset }
  let t5 := { t4 with sentBytes := 0 }
  { t5 with timerDelay := some t5.intervalSeconds }

/-- The attribute values applied when a C3Tunnel object is created:
Gamma, Interval, MaxRate, MinRate and RateThresh from GetTypeId
(c3-tunnel.cc lines 20-45). -/
structure Attributes where
  Gamma : ℚ
  IntervalSeconds : ℚ
  MaxRate : ℚ
  MinRate : ℚ
  RateThresh : ℚ

/-- The TypeId initial values (c3-tunnel.cc lines 20-45): Gamma 1/16,
Interval 100us, MaxRate 1000Mbps, MinRate 1Mbps, RateThresh 500Mbps. -/
def defaultAttributes : Attributes :=
  { Gamma := 1 / 16,
    IntervalSeconds := 1 / 10000,
    MaxRate := 1000000000,
    MinRate := 1000000,
    RateThresh := 500000000 }

/-- The constructor's member initializers (c3-tunnel.cc lines 62-77):
m_alpha (1.0), m_g (0.625), m_weight (0.0), m_weightRequest (0.0),
m_rate (0), m_sentBytes (0); the remaining DataRate and Time members
are default constructed to 0, the flow table starts empty, the ECN
recorder is freshly created and no tick is scheduled yet. -/
def C3Tunnel.rawConstruct (F : Type) : C3Tunnel F :=
  { alpha := 1,
    g := 5 / 8,
    weight := 0,
    weightRequest := 0,
    rate := 0,
    rateThresh := 0,
    rateMin := 0,
    rateMax := 0,
    sentBytes := 0,
    intervalSeconds := 0,
    ecn := { markedBytes := 0, markedRatio := 0 },
    flows := [],
    timerDelay := none }

/-- Object creation as the ns-3 framework performs it: run the
constructor's member initializers, then attribute construction sets
every attribute-backed member (m_g, m_interval, m_rateMax, m_rateMin,
m_rateThresh) to its configured value, the TypeId initial values of
GetTypeId when the creator sets nothing.  m_alpha and m_rate are trace
sources or plain members without an attribute, so they keep their
constructor values. -/
def C3Tunnel.CreateObject (F : Type) (a : Attributes) : C3Tunnel F :=
  let t := C3Tunnel.rawConstruct F
  { t with g := a.Gamma,
           intervalSeconds := a.IntervalSeconds,
           rateMax := a.MaxRate,
           rateMin := a.MinRate,
           rateThresh := a.RateThresh }

/-- The range check the Gamma attribute is configured with
(c3-tunnel.cc line 25): MakeDoubleChecker<double> (0.0, 1.0).  The
ns-3 attribute framework's DoubleChecker accepts a value v exactly
when min <= v and v <= max, an inclusive range check. -/
def gammaAttributeCheck (v : ℚ) : Bool :=
  decide (0 ≤ v) && decide (v ≤ 1)

/-- The range check the Interval attribute is configured with
(c3-tunnel.cc line 30): MakeTimeChecker (Time (0)).  The ns-3 time
checker accepts a value t exactly when Time (0) <= t, inclusive. -/
def intervalAttributeCheck (seconds : ℚ) : Bool :=
  decide (0 ≤ seconds)

/-- An unfinished flow after the sweep: untouched when finished, refreshed by
UpdateInfo otherwise (loop body, c3-tunnel.cc lines 181-186). -/
def refreshFlow {F : Type} (I : FlowIface F) (f : F) : F :=
  if I.IsFinished f then f else I.UpdateInfo f

/-- What one flow adds to the weight-request accumulator: nothing when
finished, its post-refresh weight otherwise (lines 182-186). -/
def flowContribution {F : Type} (I : FlowIface F) (f : F) : ℚ :=
  if I.IsFinished f then 0 else I.GetWeight (I.UpdateInfo f)

lemma foldl_updateInfoStep {F : Type} (I : FlowIface F) (flows : List F) :
    ∀ (l : List F) (q : ℚ),
      flows.foldl (updateInfoStep I) (l, q) =
        (l ++ flows.map (refreshFlow I),
         q + (flows.map (flowContribution I)).sum) := by
  induction flows with
  | nil => intro l q; simp
  | cons f fs ih =>
      intro l q
      by_cases h : I.IsFinished f
      · simp only [List.foldl_cons, updateInfoStep, h, if_true, ih,
          List.map_cons, List.sum_cons, refreshFlow, flowContribution]
        simp [List.append_assoc]
      · simp only [List.foldl_cons, updateInfoStep, h, if_false, ih,
          List.map_cons, List.sum_cons, refreshFlow, flowContribution,
          Bool.false_eq_true]
        simp [List.append_assoc, add_assoc]

lemma sum_flowContribution {F : Type} (I : FlowIface F) (flows : List F) :
    (flows.map (flowContribution I)).sum =
      ((flows.filter fun f => ! I.IsFinished f).map
        fun f => I.GetWeight (I.UpdateInfo f)).sum := by
  induction flows with
  | nil => simp
  | cons f fs ih =>
      by_cases h : I.IsFinished f <;>
        simp [flowContribution, h, ih]

lemma clampRate_mem (c rMin rMax : ℚ) (h : rMin ≤ rMax) :
    rMin ≤ clampRate c rMin rMax ∧ clampRate c rMin rMax ≤ rMax :=
  ⟨le_max_right _ _, max_le (min_le_right _ _) h⟩

lemma updateRate_rate {F : Type} (t : C3Tunnel F) :
    t.UpdateRate.rate =
      clampRate
        (if t.ecn.GetMarkedBytes ≠ 0 then (1 - t.alpha / 2) * t.prevRateBps
         else if t.rate < t.rateThresh then (1 + t.weight) * t.prevRateBps
         else t.prevRateBps + t.weight * 10000000)
        t.rateMin t.rateMax := by
  unfold C3Tunnel.UpdateRate
  by_cases h : t.ecn.GetMarkedBytes ≠ 0
  · simp [h]
  · by_cases h2 : t.rate < t.rateThresh <;> simp [h, h2]

lemma updateRate_exists_clamp {F : Type} (t : C3Tunnel F) :
    ∃ c : ℚ, t.UpdateRate.rate = clampRate c t.rateMin t.rateMax := by
  unfold C3Tunnel.UpdateRate
  by_cases h : t.ecn.GetMarkedBytes ≠ 0
  · exact ⟨(1 - t.alpha / 2) * t.prevRateBps, by simp [h]⟩
  · by_cases h2 : t.rate < t.rateThresh
    · exact ⟨(1 + t.weight) * t.prevRateBps, by simp [h, h2]⟩
    · exact ⟨t.prevRateBps + t.weight * 10000000, by simp [h, h2]⟩

/-- A concrete flow interface on Unit, for evaluating theorems. -/
def unitFlowIface : FlowIface Unit :=
  { IsFinished := fun _ => false,
    UpdateInfo := fun u => u,
    GetWeight := fun _ => 1 }

/-- A concrete tunnel state in which the recorder saw marked bytes
(the numbers of spec section 8, scenario 2: 125000 bytes sent over a
100us interval, alpha 1/2, weight 1/10, default rate bounds). -/
def congestedSample : C3Tunnel Unit :=
  { alpha := 1 / 2,
    g := 1 / 2,
    weight := 1 / 10,
    weightRequest := 0,
    rate := 1000000,
    rateThresh := 500000000,
    rateMin := 1000000,
    rateMax := 1000000000,
    sentBytes := 125000,
    intervalSeconds := 1 / 10000,
    ecn := { markedBytes := 500, markedRatio := 1 / 2 },
    flows := [],
    timerDelay := none }

/-- The same state with no marked bytes (scenario 1 of spec section 8). -/
def quietSample : C3Tunnel Unit :=
  { congestedSample with ecn := { markedBytes := 0, markedRatio := 0 } }

/-- A congested state whose alpha still has its initial value 1. -/
def freshCongestedSample : C3Tunnel Unit :=
  { congestedSample with alpha := 1 }

/-- A pathological congested state: alpha = 3 makes the congestion
candidate negative, exercising the clamp from below. -/
def weirdSample : C3Tunnel Unit :=
  { congestedSample with alpha := 3 }

/-- C1: on every tick in which the ECN recorder reports markedBytes > 0 — and
only in that case, regardless of alpha's magnitude — UpdateRate computes the
candidate (1 - alpha/2) * prevRateBps, assigns the unclamped candidate to
rateThresh, and stores the candidate clamped to [rateMin, rateMax] as the new
rate; rateThresh itself is never clamped. -/
theorem c1_congestion_branch {F : Type} (t : C3Tunnel F)
    (h : 0 < t.ecn.GetMarkedBytes) :
    t.UpdateRate.rateThresh = (1 - t.alpha / 2) * t.prevRateBps
    ∧ t.UpdateRate.rate =
        clampRate ((1 - t.alpha / 2) * t.prevRateBps) t.rateMin t.rateMax
    ∧ ∀ s : C3Tunnel F, s.ecn.GetMarkedBytes = 0 →
        s.UpdateRate.rateThresh = s.rateThresh := by
  have hne : t.ecn.GetMarkedBytes ≠ 0 := Nat.pos_iff_ne_zero.mp h
  refine ⟨?_, ?_, ?_⟩
  · simp [C3Tunnel.UpdateRate, hne]
  · simp [C3Tunnel.UpdateRate, hne]
  · intro s hs
    by_cases h2 : s.rate < s.rateThresh <;>
      simp [C3Tunnel.UpdateRate, hs, h2]

/-- Witness for C1 at the congested sample state. -/
theorem c1_witness :
    0 < congestedSample.ecn.GetMarkedBytes
    ∧ congestedSample.UpdateRate.rateThresh =
        (1 - congestedSample.alpha / 2) * congestedSample.prevRateBps
    ∧ congestedSample.UpdateRate.rate =
        clampRate ((1 - congestedSample.alpha / 2) * congestedSample.prevRateBps)
          congestedSample.rateMin congestedSample.rateMax :=
  ⟨by decide,
   (c1_congestion_branch congestedSample (by decide)).1,
   (c1_congestion_branch congestedSample (by decide)).2.1⟩

/-- C2: on every tick in which the ECN recorder reports markedBytes == 0,
UpdateRate branches on the stored rate as it stood before this tick's update:
below rateThresh the candidate is (1 + weight) * prevRateBps, otherwise
prevRateBps + weight * K with K = 10^7 bits/sec (10 Mbps); rateThresh is left
unchanged on this path. -/
theorem c2_no_congestion_branch {F : Type} (t : C3Tunnel F)
    (h : t.ecn.GetMarkedBytes = 0) :
    t.UpdateRate.rate =
      clampRate
        (if t.rate < t.rateThresh then (1 + t.weight) * t.prevRateBps
         else t.prevRateBps + t.weight * 10000000)
        t.rateMin t.rateMax
    ∧ t.UpdateRate.rateThresh = t.rateThresh := by
  by_cases h2 : t.rate < t.rateThresh <;>
    simp [C3Tunnel.UpdateRate, h, h2]

/-- Witness for C2 at the quiet sample state. -/
theorem c2_witness :
    quietSample.ecn.GetMarkedBytes = 0
    ∧ quietSample.UpdateRate.rate =
        clampRate
          (if quietSample.rate < quietSample.rateThresh then
             (1 + quietSample.weight) * quietSample.prevRateBps
           else quietSample.prevRateBps + quietSample.weight * 10000000)
          quietSample.rateMin quietSample.rateMax
    ∧ quietSample.UpdateRate.rateThresh = quietSample.rateThresh :=
  ⟨by decide,
   (c2_no_congestion_branch quietSample (by decide)).1,
   (c2_no_congestion_branch quietSample (by decide)).2⟩

/-- C3: for every input, on either branch and for any candidate (negative,
zero or huge), the rate stored by UpdateRate lies within [rateMin, rateMax],
given rateMin <= rateMax. -/
theorem c3_rate_clamped {F : Type} (t : C3Tunnel F)
    (h : t.rateMin ≤ t.rateMax) :
    t.rateMin ≤ t.UpdateRate.rate ∧ t.UpdateRate.rate ≤ t.rateMax := by
  obtain ⟨c, hc⟩ := updateRate_exists_clamp t
  rw [hc]
  exact clampRate_mem c t.rateMin t.rateMax h

/-- Witness for C3 at a state whose congestion candidate is negative. -/
theorem c3_witness :
    weirdSample.rateMin ≤ weirdSample.rateMax
    ∧ weirdSample.rateMin ≤ weirdSample.UpdateRate.rate
    ∧ weirdSample.UpdateRate.rate ≤ weirdSample.rateMax :=
  ⟨by decide,
   (c3_rate_clamped weirdSample (by decide)).1,
   (c3_rate_clamped weirdSample (by decide)).2⟩

/-- C4 fails as stated: under the default attributes the constructor leaves
the stored rate at 0 (m_rate (0), c3-tunnel.cc line 70) while rateMin is
1 Mbit/s, so immediately after construction and before the first tick the
stored rate lies below rateMin. -/
theorem c4_counterexample :
    ¬ ((C3Tunnel.CreateObject Unit defaultAttributes).rateMin ≤
        (C3Tunnel.CreateObject Unit defaultAttributes).rate) := by
  decide

/-- C4 (amended): after every completed tick the stored rate lies within
[rateMin, rateMax], provided rateMin <= rateMax; immediately after
construction, however, the stored rate is 0, which lies below rateMin under
the default configuration. -/
theorem c4_rate_bounds {F : Type} (I : FlowIface F) (t : C3Tunnel F)
    (h : t.rateMin ≤ t.rateMax) :
    ((t.Update I).rateMin ≤ (t.Update I).rate
      ∧ (t.Update I).rate ≤ (t.Update I).rateMax)
    ∧ (C3Tunnel.CreateObject F defaultAttributes).rate = 0 := by
  have hmin : (t.Update I).rateMin = t.rateMin := rfl
  have hmax : (t.Update I).rateMax = t.rateMax := rfl
  have hrate : (t.Update I).rate = (C3Tunnel.UpdateInfo I t).UpdateRate.rate :=
    rfl
  obtain ⟨c, hc⟩ := updateRate_exists_clamp (C3Tunnel.UpdateInfo I t)
  have hmin2 : (C3Tunnel.UpdateInfo I t).rateMin = t.rateMin := rfl
  have hmax2 : (C3Tunnel.UpdateInfo I t).rateMax = t.rateMax := rfl
  refine ⟨?_, rfl⟩
  rw [hmin, hmax, hrate, hc, hmin2, hmax2]
  exact clampRate_mem c t.rateMin t.rateMax h

/-- Witness for the amended C4 at the quiet sample state. -/
theorem c4_witness :
    quietSample.rateMin ≤ quietSample.rateMax
    ∧ (((quietSample.Update unitFlowIface).rateMin ≤
          (quietSample.Update unitFlowIface).rate
        ∧ (quietSample.Update unitFlowIface).rate ≤
            (quietSample.Update unitFlowIface).rateMax)
       ∧ (C3Tunnel.CreateObject Unit defaultAttributes).rate = 0) :=
  ⟨by decide, c4_rate_bounds unitFlowIface quietSample (by decide)⟩

/-- C5: for every alpha0 in [0,1], g in (0,1) and marked ratio in [0,1], one
UpdateInfo yields exactly alpha1 = (1-g)*alpha0 + g*ratio, and alpha1 again
lies in [0,1]. -/
theorem c5_alpha_ewma_closure {F : Type} (I : FlowIface F) (t : C3Tunnel F)
    (h0 : 0 ≤ t.alpha) (h1 : t.alpha ≤ 1)
    (hg0 : 0 < t.g) (hg1 : t.g < 1)
    (hr0 : 0 ≤ t.ecn.GetMarkedRatio) (hr1 : t.ecn.GetMarkedRatio ≤ 1) :
    (t.UpdateInfo I).alpha = (1 - t.g) * t.alpha + t.g * t.ecn.GetMarkedRatio
    ∧ 0 ≤ (t.UpdateInfo I).alpha ∧ (t.UpdateInfo I).alpha ≤ 1 := by
  have heq : (t.UpdateInfo I).alpha =
      (1 - t.g) * t.alpha + t.g * t.ecn.GetMarkedRatio := rfl
  refine ⟨heq, ?_, ?_⟩ <;> rw [heq]
  · have p1 : 0 ≤ (1 - t.g) * t.alpha :=
      mul_nonneg (by linarith) h0
    have p2 : 0 ≤ t.g * t.ecn.GetMarkedRatio :=
      mul_nonneg hg0.le hr0
    linarith
  · have p1 : (1 - t.g) * t.alpha ≤ (1 - t.g) * 1 :=
      mul_le_mul_of_nonneg_left h1 (by linarith)
    have p2 : t.g * t.ecn.GetMarkedRatio ≤ t.g * 1 :=
      mul_le_mul_of_nonneg_left hr1 hg0.le
    linarith

/-- Witness for C5 at the quiet sample state. -/
theorem c5_witness :
    (0 ≤ quietSample.alpha ∧ quietSample.alpha ≤ 1
      ∧ 0 < quietSample.g ∧ quietSample.g < 1
      ∧ 0 ≤ quietSample.ecn.GetMarkedRatio
      ∧ quietSample.ecn.GetMarkedRatio ≤ 1)
    ∧ ((quietSample.UpdateInfo unitFlowIface).alpha =
        (1 - quietSample.g) * quietSample.alpha
          + quietSample.g * quietSample.ecn.GetMarkedRatio
      ∧ 0 ≤ (quietSample.UpdateInfo unitFlowIface).alpha
      ∧ (quietSample.UpdateInfo unitFlowIface).alpha ≤ 1) :=
  ⟨⟨by norm_num [quietSample, congestedSample],
    by norm_num [quietSample, congestedSample],
    by norm_num [quietSample, congestedSample],
    by norm_num [quietSample, congestedSample],
    by norm_num [quietSample, congestedSample, C3EcnRecorder.GetMarkedRatio],
    by norm_num [quietSample, congestedSample, C3EcnRecorder.GetMarkedRatio]⟩,
   c5_alpha_ewma_closure unitFlowIface quietSample
     (by norm_num [quietSample, congestedSample])
     (by norm_num [quietSample, congestedSample])
     (by norm_num [quietSample, congestedSample])
     (by norm_num [quietSample, congestedSample])
     (by norm_num [quietSample, congestedSample, C3EcnRecorder.GetMarkedRatio])
     (by norm_num [quietSample, congestedSample, C3EcnRecorder.GetMarkedRatio])⟩

/-- C6: one UpdateInfo sweep sets weightRequest to the sum of GetWeight over
exactly the unfinished flows, refreshing each unfinished flow with UpdateInfo
before reading its weight; finished flows contribute nothing and are not
refreshed, and every entry (finished or not) remains in the table. -/
theorem c6_flow_aggregate {F : Type} (I : FlowIface F) (t : C3Tunnel F) :
    (t.UpdateInfo I).flows =
      t.flows.map (fun f => if I.IsFinished f then f else I.UpdateInfo f)
    ∧ (t.UpdateInfo I).flows.length = t.flows.length
    ∧ (t.UpdateInfo I).weightRequest =
        ((t.flows.filter fun f => ! I.IsFinished f).map
          fun f => I.GetWeight (I.UpdateInfo f)).sum := by
  have hfold := foldl_updateInfoStep I t.flows [] 0
  have hflows : (t.UpdateInfo I).flows =
      (t.flows.foldl (updateInfoStep I) ([], 0)).1 := rfl
  have hw : (t.UpdateInfo I).weightRequest =
      (t.flows.foldl (updateInfoStep I) ([], 0)).2 := rfl
  refine ⟨?_, ?_, ?_⟩
  · rw [hflows, hfold]; rfl
  · rw [hflows, hfold]
    simp [List.length_map]
  · rw [hw, hfold]
    simp [sum_flowContribution]

/-- C7: one Update executes, in order, the refresh of the congestion estimate
and the flow aggregate, then the rate computation from the pre-reset
sentBytes and ECN counters (with the already-refreshed alpha), then the ECN
counter reset, then sentBytes := 0, then rescheduling after one interval. -/
theorem c7_update_ordering {F : Type} (I : FlowIface F) (t : C3Tunnel F) :
    (t.Update I).sentBytes = 0
    ∧ (t.Update I).ecn = t.ecn.Reset
    ∧ (t.Update I).alpha = (1 - t.g) * t.alpha + t.g * t.ecn.GetMarkedRatio
    ∧ (t.Update I).rate =
        clampRate
          (if t.ecn.GetMarkedBytes ≠ 0 then
             (1 - ((1 - t.g) * t.alpha + t.g * t.ecn.GetMarkedRatio) / 2)
               * t.prevRateBps
           else if t.rate < t.rateThresh then (1 + t.weight) * t.prevRateBps
           else t.prevRateBps + t.weight * 10000000)
          t.rateMin t.rateMax
    ∧ (t.Update I).timerDelay = some t.intervalSeconds := by
  refine ⟨rfl, rfl, rfl, ?_, rfl⟩
  have hrate : (t.Update I).rate = (C3Tunnel.UpdateInfo I t).UpdateRate.rate :=
    rfl
  have e1 : (C3Tunnel.UpdateInfo I t).ecn = t.ecn := rfl
  have e2 : (C3Tunnel.UpdateInfo I t).prevRateBps = t.prevRateBps := rfl
  have e3 : (C3Tunnel.UpdateInfo I t).rate = t.rate := rfl
  have e4 : (C3Tunnel.UpdateInfo I t).rateThresh = t.rateThresh := rfl
  have e5 : (C3Tunnel.UpdateInfo I t).weight = t.weight := rfl
  have e6 : (C3Tunnel.UpdateInfo I t).rateMin = t.rateMin := rfl
  have e7 : (C3Tunnel.UpdateInfo I t).rateMax = t.rateMax := rfl
  have e8 : (C3Tunnel.UpdateInfo I t).alpha =
      (1 - t.g) * t.alpha + t.g * t.ecn.GetMarkedRatio := rfl
  rw [hrate, updateRate_rate, e1, e2, e3, e4, e5, e6, e7, e8]

/-- C8 fails on the code: the checkers the Gamma and Interval attributes are
configured with are inclusive range checks, so the boundary configurations
Gamma = 0, Gamma = 1 and Interval = 0 are all accepted at configuration time
— even though the Gamma attribute's own description demands 0 < Gamma < 1 —
and UpdateRate divides by the interval with no runtime guard. -/
theorem c8_boundary_accepted :
    gammaAttributeCheck 0 = true
    ∧ gammaAttributeCheck 1 = true
    ∧ intervalAttributeCheck 0 = true := by
  decide

/-- C9: a tunnel created without an explicit Gamma setting gets the TypeId
initial value 1/16 during attribute construction (which overwrites the
constructor's dead m_g (0.625) initializer), and the first alpha refresh uses
exactly that smoothing weight. -/
theorem c9_default_gamma {F : Type} (I : FlowIface F) :
    (C3Tunnel.CreateObject F defaultAttributes).g = 1 / 16
    ∧ ((C3Tunnel.CreateObject F defaultAttributes).UpdateInfo I).alpha =
        (1 - 1 / 16) * (C3Tunnel.CreateObject F defaultAttributes).alpha
          + (1 / 16)
            * (C3Tunnel.CreateObject F defaultAttributes).ecn.GetMarkedRatio :=
  ⟨rfl, rfl⟩

/-- C10: immediately after construction, before the first tick, alpha equals
1 — the most pessimistic congestion estimate — so the first congestion event
after a tick with traffic cuts the candidate rate to exactly half of
prevRateBps before clamping. -/
theorem c10_initial_alpha {F : Type} (a : Attributes) (t : C3Tunnel F)
    (halpha : t.alpha = (C3Tunnel.CreateObject F a).alpha)
    (hm : 0 < t.ecn.GetMarkedBytes) :
    (C3Tunnel.CreateObject F a).alpha = 1
    ∧ t.UpdateRate.rateThresh = t.prevRateBps / 2
    ∧ t.UpdateRate.rate =
        clampRate (t.prevRateBps / 2) t.rateMin t.rateMax := by
  have ha : t.alpha = 1 := halpha
  have hne : t.ecn.GetMarkedBytes ≠ 0 := Nat.pos_iff_ne_zero.mp hm
  have hhalf : (1 - t.alpha / 2) * t.prevRateBps = t.prevRateBps / 2 := by
    rw [ha]; ring
  refine ⟨rfl, ?_, ?_⟩
  · have hth : t.UpdateRate.rateThresh = (1 - t.alpha / 2) * t.prevRateBps := by
      simp [C3Tunnel.UpdateRate, hne]
    rw [hth, hhalf]
  · rw [updateRate_rate, if_pos hne, hhalf]

/-- Witness for C10 at a freshly constructed-like congested state. -/
theorem c10_witness :
    freshCongestedSample.alpha =
      (C3Tunnel.CreateObject Unit defaultAttributes).alpha
    ∧ 0 < freshCongestedSample.ecn.GetMarkedBytes
    ∧ ((C3Tunnel.CreateObject Unit defaultAttributes).alpha = 1
       ∧ freshCongestedSample.UpdateRate.rateThresh =
           freshCongestedSample.prevRateBps / 2
       ∧ freshCongestedSample.UpdateRate.rate =
           clampRate (freshCongestedSample.prevRateBps / 2)
             freshCongestedSample.rateMin freshCongestedSample.rateMax) :=
  ⟨rfl, by decide,
   c10_initial_alpha defaultAttributes freshCongestedSample rfl (by decide)⟩

end C3p
